import Mathlib

/-!
Verification of the real-time session orchestrator of SpeakFluent-Ai.

Shallow embedding of the backend's WebSocket core:
  * `ConnectionManager` (src/backend/app/websocket/manager.py): the room
    registry, `disconnect`, `broadcast_json`, `get_participant_list`.
  * the per-segment utterance pipeline and the session lifecycle of
    `websocket_meeting` (src/backend/app/websocket/handler.py).
  * `translate_text` / `detect_language` (src/backend/app/services/translation.py)
    and the failure envelope of `synthesize_speech` (src/backend/app/services/tts.py).

External collaborators (Whisper, Google Translate, Edge-TTS, the database)
are modelled as explicit function parameters; a Python exception raised by a
collaborator is an `Except.error`.  WebSocket send outcomes are modelled by a
predicate `sendOk : Participant → Bool` (whether `websocket.send_json`
succeeds for that participant's socket).

A load-bearing fact of the source: `Participant` is a plain `@dataclass`
(defaults `eq=True`, `frozen=False`), which sets `__hash__ = None`, so its
instances are unhashable.  manager.py nevertheless stores them in builtin
`set`s: `set.add` (connect, line 54) and `set.discard` (disconnect line 82,
broadcast prune line 112) raise `TypeError` at run time.  The registry
mutations below model those raises explicitly; only iteration, membership
of the room key (a `str`), and list building avoid hashing and stay total.
-/

namespace SpeakFluent

/-- A connected meeting participant (dataclass `Participant` in manager.py,
minus the raw socket handle, which is represented by `sendOk` arguments). -/
structure Participant where
  userId : Nat
  username : String
  languageMode : String
deriving DecidableEq, Repr

/-- The `ConnectionManager._rooms` mapping: room_code → set of participants.
Modelled as an association list with (in practice) unique keys; the Python
`set` is modelled as a duplicate-free list.  (In states the program can
actually reach every set is empty, because `set.add` raises on the
unhashable `Participant`; non-empty lists model the states the rest of the
code is written for.) -/
abbrev Registry := List (String × List Participant)

/-- Python `room_code in self._rooms` / `self._rooms[room_code]`. -/
def lookupRoom : Registry → String → Option (List Participant)
  | [], _ => none
  | (c, ps) :: rest, code => if c = code then some ps else lookupRoom rest code

/-- `ConnectionManager.get_participant_list`: the roster for a room (the
source returns each participant's user_id/username/language_mode dict, which
is exactly a `Participant` here). -/
def get_participant_list (r : Registry) (code : String) : List Participant :=
  (lookupRoom r code).getD []

/-- `ConnectionManager.get_room_count`. -/
def get_room_count (r : Registry) : Nat := r.length

/-- `ConnectionManager.get_total_connections`. -/
def get_total_connections (r : Registry) : Nat :=
  (r.map (fun e => e.2.length)).sum

/-- `ConnectionManager.disconnect`: `if room_code in self._rooms:` then
`set.discard(participant)`.  Because `Participant` is unhashable, `discard`
raises `TypeError` whenever the room key exists (even for an absent
session), and the emptiness check and `del` below it are unreachable.  When
the key is absent the method only logs and returns. -/
def disconnect (r : Registry) (code : String) (_p : Participant) :
    Except Unit Registry :=
  match lookupRoom r code with
  | none => Except.ok r
  | some _ => Except.error ()

/-- The participants `ConnectionManager.broadcast_json` attempts to deliver
to: everyone in the room except the excluded session (`if p is exclude:
continue`). -/
def broadcastAttempts (ps : List Participant) (excl : Option Participant) :
    List Participant :=
  ps.filter (fun p => decide (some p ≠ excl))

/-- Result of one `broadcast_json` call: the participants whose send
succeeded, the registry when the call ends, and whether the call raised. -/
structure BroadcastOutcome where
  delivered : List Participant
  registry : Registry
  raised : Bool
deriving DecidableEq, Repr

/-- `ConnectionManager.broadcast_json`: the send loop runs to completion
first — each non-excluded participant is attempted independently and
failures are only collected — then the prune loop calls
`set.discard` on each failed session, which raises `TypeError` on the
unhashable `Participant` at its first iteration.  So with at least one
failed delivery the call raises and nothing is pruned; with none, the prune
loop is empty and the registry is untouched either way. -/
def broadcast_json (r : Registry) (code : String) (excl : Option Participant)
    (sendOk : Participant → Bool) : BroadcastOutcome :=
  match lookupRoom r code with
  | none => ⟨[], r, false⟩
  | some ps =>
    let attempts := broadcastAttempts ps excl
    let delivered := attempts.filter (fun p => sendOk p)
    let failed := attempts.filter (fun p => !sendOk p)
    ⟨delivered, r, decide (¬ failed = [])⟩

/-- `ConnectionManager.connect` (registration part): create the room entry
on first join (`self._rooms[room_code] = set()`), then `set.add(participant)`
— which raises `TypeError` on the unhashable `Participant`.  Registration
never succeeds: at most an empty room entry is created, and the raise
propagates.  Returns the registry as left behind and the raise flag. -/
def connectRegister (r : Registry) (code : String) (_p : Participant) :
    Registry × Bool :=
  match lookupRoom r code with
  | none => (r ++ [(code, [])], true)
  | some _ => (r, true)

/-- `ConnectionManager.connect`: accept, register, then broadcast
`user_joined` to the rest of the room.  The `set.add` raise makes everything
after registration unreachable, so the `user_joined` broadcast never runs. -/
def manager_connect (r : Registry) (code : String) (p : Participant)
    (_sendOk : Participant → Bool) : Registry × Bool :=
  connectRegister r code p

/-! ### The utterance pipeline (handler.py + services) -/

/-- The dict returned by `transcribe_audio` (transcription.py): the service
catches its own exceptions, so it is a total function into this shape. -/
structure Transcription where
  text : String
  language : String
  confidence : ℚ
deriving DecidableEq, Repr

/-- The `translation_result` payload built in `websocket_meeting` (the
constant `type` tag and the raw dict framing are omitted). -/
structure ResultData where
  userId : Nat
  username : String
  originalText : String
  translatedText : String
  sourceLanguage : String
  targetLanguage : String
  audioUrl : String
  confidence : ℚ
deriving DecidableEq, Repr

/-- Observable external-collaborator calls made while handling one inbound
segment, in order. -/
inductive Call where
  | transcribeAudio (audio : List Nat)
  | translateCall (text source target : String)
  | synthesizeCall (text lang : String)
  | broadcastCall (code : String)
  | directSendCall (userId : Nat)
  | saveCall (code : String)
deriving DecidableEq, Repr

/-- The external collaborators of the pipeline.  `Except.error` models a
raised Python exception at the collaborator boundary. -/
structure Collaborators where
  transcribeFn : List Nat → Transcription
  detectRaw : String → Except Unit String
  translateFn : String → String → String → Except Unit (Option String)
  synthRaw : String → String → Except Unit String
  saveFn : Except Unit Unit

/-- `detect_language` (translation.py): `langdetect.detect` with a
Devanagari-family fallback, defaulting to `en` on `LangDetectException`. -/
def detect_language (C : Collaborators) (text : String) : String :=
  match C.detectRaw text with
  | Except.ok lang =>
      if lang = "hi" ∨ lang = "mr" ∨ lang = "ne" ∨ lang = "sa" then "hi" else "en"
  | Except.error _ => "en"

/-- Python's emptiness test `not text or not text.strip()`: true iff the
string has no non-whitespace character. -/
def isBlank (s : String) : Bool := s.data.all Char.isWhitespace

/-- The translated text produced inside `translate_text`'s `try` block: a
collaborator exception (outer `except`) or a `None` result (`if translated
is None`) both fall back to the original text. -/
def translateFallback (C : Collaborators) (text sl tl : String) : String :=
  match C.translateFn text sl tl with
  | Except.ok (some t) => t
  | Except.ok none => text
  | Except.error _ => text

/-- `translate_text` (translation.py): empty text short-circuits; `auto`
source is detected; a source equal to the target flips the target to the
other supported language; the collaborator result goes through
`translateFallback`.  Returns
`((translated_text, resolved_source, resolved_target), calls made)`. -/
def translate_text (C : Collaborators) (text source_lang target_lang : String) :
    (String × String × String) × List Call :=
  if isBlank text then (("", source_lang, target_lang), [])
  else
    let sl := if source_lang = "auto" then detect_language C text else source_lang
    let tl := if sl = target_lang then (if sl = "hi" then "en" else "hi") else target_lang
    ((translateFallback C text sl tl, sl, tl), [Call.translateCall text sl tl])

/-- `synthesize_speech` (tts.py): empty text yields an empty reference; a
raised synthesis error is caught and also yields an empty reference. -/
def synthesize_speech (C : Collaborators) (text lang : String) : String :=
  if isBlank text then ""
  else
    match C.synthRaw text lang with
    | Except.ok url => url
    | Except.error _ => ""

/-- Whether the awaited `_save_message` call raises (e.g. a database error);
the handler wraps it in no local `try`, so a raise escapes the loop body. -/
def saveRaises (C : Collaborators) : Bool :=
  match C.saveFn with
  | Except.ok _ => false
  | Except.error _ => true

/-- Everything observable about handling one inbound binary segment in the
`RUNNING` loop of `websocket_meeting`: the registry afterwards, the
`translation_result` record (if one was built), the deliveries made
(recipient, payload), the collaborator calls, and whether an exception
escaped the loop body (ending the session). -/
structure BinStep where
  registry : Registry
  result : Option ResultData
  deliveries : List (Participant × ResultData)
  calls : List Call
  raised : Bool
deriving DecidableEq, Repr

/-- The binary-message branch of the `RUNNING` loop in `websocket_meeting`
(handler.py lines 161-226): filter tiny frames, transcribe, skip empty
text, resolve languages from the session mode with the confident-detector
override, translate, synthesize, broadcast to the room with no exclusion,
direct-send to the speaker, then persist (whose exception propagates).
When the broadcast raises (its prune hit a failed session), the direct send
and the persistence write are never reached and the `TypeError` escapes the
loop body; otherwise a persistence error is what can escape. -/
def handleBinaryMessage (C : Collaborators) (sendOk : Participant → Bool)
    (r : Registry) (code : String) (speaker : Participant)
    (language_mode : String) (audio : List Nat) : BinStep :=
  if audio.length < 100 then ⟨r, none, [], [], false⟩
  else
    let tr := C.transcribeFn audio
    if isBlank tr.text then ⟨r, none, [], [Call.transcribeAudio audio], false⟩
    else
      let source_lang0 := if language_mode = "hi_to_en" then "hi" else "en"
      let target_lang0 := if language_mode = "hi_to_en" then "en" else "hi"
      let source_lang := if mkRat 1 2 < tr.confidence then tr.language else source_lang0
      let tres := translate_text C tr.text source_lang target_lang0
      let translated_text := tres.1.1
      let src := tres.1.2.1
      let tgt := tres.1.2.2
      let audio_url := synthesize_speech C translated_text tgt
      let res : ResultData :=
        ⟨speaker.userId, speaker.username, tr.text, translated_text,
          src, tgt, audio_url, tr.confidence⟩
      let bres := broadcast_json r code none sendOk
      let deliveries := (bres.delivered.map (fun p => (p, res)))
        ++ (if bres.raised then []
            else if sendOk speaker then [(speaker, res)] else [])
      let calls := [Call.transcribeAudio audio] ++ tres.2
        ++ [Call.synthesizeCall translated_text tgt, Call.broadcastCall code]
        ++ (if bres.raised then []
            else [Call.directSendCall speaker.userId, Call.saveCall code])
      ⟨bres.registry, some res, deliveries, calls,
        if bres.raised then true else saveRaises C⟩

/-! ### Session teardown (handler.py `finally` block) -/

/-- The `user_left` payload broadcast from the `finally` block. -/
structure UserLeftEvent where
  userId : Nat
  username : String
  participants : List Participant
deriving DecidableEq, Repr

/-- Outcome of the `finally` block: the registry when it ends, the members
the `user_left` broadcast reached, the event payload (if it was ever
constructed), and whether the block itself raised. -/
structure TeardownResult where
  registry : Registry
  delivered : List Participant
  event : Option UserLeftEvent
  raised : Bool
deriving DecidableEq, Repr

/-- The `finally` block of `websocket_meeting`: `manager.disconnect`, then a
`user_left` broadcast (no exclusion) carrying the refreshed roster.  When
`disconnect` raises (the room entry exists — see `disconnect`), the
broadcast is never reached: no event is built, nobody receives it, the
count does not change, and the `TypeError` propagates out of the handler. -/
def websocketTeardown (r : Registry) (code : String) (u : Participant)
    (sendOk : Participant → Bool) : TeardownResult :=
  match disconnect r code u with
  | Except.error _ => ⟨r, [], none, true⟩
  | Except.ok r1 =>
    let ev : UserLeftEvent := ⟨u.userId, u.username, get_participant_list r1 code⟩
    let b := broadcast_json r1 code none sendOk
    ⟨b.registry, b.delivered, some ev, b.raised⟩

/-- How the `RUNNING` receive loop exited: a transport-level
`WebSocketDisconnect`, or any unexpected exception. -/
inductive ExitReason where
  | disconnected
  | errored
deriving DecidableEq, Repr

/-- The `try/except/except/finally` tail of `websocket_meeting`: whichever
way the loop exits, both handlers only log and control falls through to the
same teardown. -/
def handlerFinally (exit : ExitReason) (r : Registry) (code : String)
    (u : Participant) (sendOk : Participant → Bool) : TeardownResult :=
  match exit with
  | ExitReason.disconnected => websocketTeardown r code u sendOk
  | ExitReason.errored => websocketTeardown r code u sendOk

/-! ### Connection prelude (handler.py authentication and room validation) -/

/-- The identity `_authenticate_ws` resolves a token to. -/
structure UserRec where
  id : Nat
  username : String
deriving DecidableEq, Repr

/-- How `websocket_meeting` leaves its pre-loop phase: an immediate close
with a code and reason, or a `TypeError` raised out of `manager.connect`
(registration never succeeds — see `connectRegister`). -/
inductive ConnectOutcome where
  | closed (code : Nat) (reason : String)
  | registrationRaised (p : Participant)
deriving DecidableEq, Repr

/-- The pre-loop phase of `websocket_meeting` (lines 112-141): authenticate
(close 4001 on failure), validate the room is active (close 4002 on
failure), look up the participant's mode (defaulting to `hi_to_en`), then
register via `manager.connect`. -/
def websocket_meeting_prelude (authUser : Option UserRec) (roomFound : Bool)
    (modeLookup : Option String) (r : Registry) (code : String)
    (sendOk : Participant → Bool) : ConnectOutcome × Registry :=
  match authUser with
  | none => (ConnectOutcome.closed 4001 "Authentication failed", r)
  | some u =>
    if roomFound then
      let mode := modeLookup.getD "hi_to_en"
      let p : Participant := ⟨u.id, u.username, mode⟩
      (ConnectOutcome.registrationRaised p, (manager_connect r code p sendOk).1)
    else (ConnectOutcome.closed 4002 "Room not found or ended", r)

/-- The `translation_result` record built on the processed path, as a
function of the collaborators, the speaker and the segment. -/
def theRes (C : Collaborators) (speaker : Participant) (language_mode : String)
    (audio : List Nat) : ResultData :=
  let tr := C.transcribeFn audio
  let source_lang0 := if language_mode = "hi_to_en" then "hi" else "en"
  let target_lang0 := if language_mode = "hi_to_en" then "en" else "hi"
  let source_lang := if mkRat 1 2 < tr.confidence then tr.language else source_lang0
  let tres := translate_text C tr.text source_lang target_lang0
  ⟨speaker.userId, speaker.username, tr.text, tres.1.1, tres.1.2.1, tres.1.2.2,
    synthesize_speech C tres.1.1 tres.1.2.2, tr.confidence⟩

/-! ### Demonstration data used by witness theorems -/

def pA : Participant := ⟨1, "asha", "hi_to_en"⟩

def pB : Participant := ⟨2, "ben", "en_to_hi"⟩

def pC : Participant := ⟨3, "chen", "hi_to_en"⟩

def demoReg : Registry := [("room1", [pA, pB, pC])]

/-- A socket model in which participant 2's connection is broken. -/
def demoSend : Participant → Bool := fun p => decide (p.userId ≠ 2)

/-- A 120-byte audio frame. -/
def demoAudio : List Nat := List.replicate 120 0

/-- Healthy collaborators: transcription hears "hello" in English with
confidence 0.9; translation appends "!"; synthesis returns "text-lang". -/
def demoC : Collaborators :=
  ⟨fun _ => ⟨"hello", "en", mkRat 9 10⟩,
   fun _ => Except.ok "en",
   fun t _ _ => Except.ok (some (String.append t "!")),
   fun t l => Except.ok (String.append (String.append t "-") l),
   Except.ok ()⟩

/-- Like `demoC` but the translation collaborator always raises. -/
def demoCfailT : Collaborators :=
  ⟨fun _ => ⟨"hello", "en", mkRat 9 10⟩,
   fun _ => Except.ok "en",
   fun _ _ _ => Except.error (),
   fun t l => Except.ok (String.append (String.append t "-") l),
   Except.ok ()⟩

/-- Like `demoC` but the persistence write raises. -/
def demoCfailSave : Collaborators :=
  ⟨fun _ => ⟨"hello", "en", mkRat 9 10⟩,
   fun _ => Except.ok "en",
   fun t _ _ => Except.ok (some (String.append t "!")),
   fun t l => Except.ok (String.append (String.append t "-") l),
   Except.error ()⟩

/-- Like `demoC` but transcription returns whitespace-only text. -/
def demoCEmpty : Collaborators :=
  ⟨fun _ => ⟨"  ", "en", mkRat 0 1⟩,
   fun _ => Except.ok "en",
   fun t _ _ => Except.ok (some (String.append t "!")),
   fun t l => Except.ok (String.append (String.append t "-") l),
   Except.ok ()⟩

/-! ### Registry helper lemmas -/

/-- In a duplicate-free list containing `a`, the elements equal to `a` are
exactly `[a]`. -/
theorem filter_eq_singleton_of_nodup {α : Type} [DecidableEq α]
    (l : List α) (hnd : l.Nodup) (a : α) (ha : a ∈ l) :
    l.filter (fun x => decide (x = a)) = [a] := by
  induction l with
  | nil => cases ha
  | cons x xs ih =>
    rcases List.nodup_cons.mp hnd with ⟨hx, hxs⟩
    by_cases hxa : x = a
    · subst hxa
      rw [List.filter_cons_of_pos (by simp)]
      have hnone : xs.filter (fun y => decide (y = x)) = [] :=
        List.filter_eq_nil_iff.mpr (fun y hy => by
          simp only [decide_eq_true_eq]
          exact fun he => hx (he ▸ hy))
      rw [hnone]
    · have ha' : a ∈ xs := by
        rcases List.mem_cons.mp ha with h | h
        · exact absurd h.symm hxa
        · exact h
      rw [List.filter_cons_of_neg (by simpa using hxa)]
      exact ih hxs ha'

/-- Broadcasting with no excluded session attempts delivery to the whole
room. -/
theorem broadcastAttempts_none (ps : List Participant) :
    broadcastAttempts ps none = ps := by
  unfold broadcastAttempts
  exact List.filter_eq_self.mpr (fun p _ => by simp)

/-! ### Pipeline unfolding lemmas -/

/-- Filtering pairs built by pairing every element with a fixed payload, by
their first component, is filtering the underlying list. -/
theorem filter_fst_map_pair (l : List Participant) (res : ResultData)
    (a : Participant) :
    ((l.map (fun p => (p, res))).filter (fun d => decide (d.1 = a)))
      = (l.filter (fun p => decide (p = a))).map (fun p => (p, res)) := by
  induction l with
  | nil => rfl
  | cons x xs ih =>
    by_cases hx : x = a
    · simp [List.filter_cons, hx, ih]
    · simp [List.filter_cons, hx, ih]

theorem translate_text_resolved (C : Collaborators) (text sl tl : String)
    (htext : ¬ isBlank text = true) (hauto : ¬ sl = "auto") :
    translate_text C text sl tl =
      ((translateFallback C text sl
          (if sl = tl then (if sl = "hi" then "en" else "hi") else tl),
        sl, (if sl = tl then (if sl = "hi" then "en" else "hi") else tl)),
       [Call.translateCall text sl
          (if sl = tl then (if sl = "hi" then "en" else "hi") else tl)]) := by
  unfold translate_text
  rw [if_neg htext]
  simp [hauto]

theorem translate_text_fst (C : Collaborators) (text sl tl : String)
    (htext : ¬ isBlank text = true) :
    (translate_text C text sl tl).1.1 =
      translateFallback C text (translate_text C text sl tl).1.2.1
        (translate_text C text sl tl).1.2.2 := by
  unfold translate_text
  rw [if_neg htext]

/-- On the processed path (frame big enough, transcription non-empty) the
whole step is this explicit record. -/
theorem handleBinaryMessage_processed (C : Collaborators)
    (sendOk : Participant → Bool) (r : Registry) (code : String)
    (speaker : Participant) (language_mode : String) (audio : List Nat)
    (hlen : 100 ≤ audio.length)
    (htext : ¬ isBlank (C.transcribeFn audio).text = true) :
    handleBinaryMessage C sendOk r code speaker language_mode audio =
      (let tr := C.transcribeFn audio
       let source_lang0 := if language_mode = "hi_to_en" then "hi" else "en"
       let target_lang0 := if language_mode = "hi_to_en" then "en" else "hi"
       let source_lang := if mkRat 1 2 < tr.confidence then tr.language else source_lang0
       let tres := translate_text C tr.text source_lang target_lang0
       let res : ResultData :=
         ⟨speaker.userId, speaker.username, tr.text, tres.1.1, tres.1.2.1, tres.1.2.2,
           synthesize_speech C tres.1.1 tres.1.2.2, tr.confidence⟩
       let bres := broadcast_json r code none sendOk
       ⟨bres.registry, some res,
        (bres.delivered.map (fun p => (p, res)))
          ++ (if bres.raised then []
              else if sendOk speaker then [(speaker, res)] else []),
        [Call.transcribeAudio audio] ++ tres.2
          ++ [Call.synthesizeCall tres.1.1 tres.1.2.2, Call.broadcastCall code]
          ++ (if bres.raised then []
              else [Call.directSendCall speaker.userId, Call.saveCall code]),
        if bres.raised then true else saveRaises C⟩) := by
  unfold handleBinaryMessage
  rw [if_neg (Nat.not_lt.mpr hlen)]
  simp [htext]

theorem handleBinaryMessage_result_eq (C : Collaborators)
    (sendOk : Participant → Bool) (r : Registry) (code : String)
    (speaker : Participant) (language_mode : String) (audio : List Nat)
    (hlen : 100 ≤ audio.length)
    (htext : ¬ isBlank (C.transcribeFn audio).text = true) :
    (handleBinaryMessage C sendOk r code speaker language_mode audio).result
      = some (theRes C speaker language_mode audio) := by
  rw [handleBinaryMessage_processed C sendOk r code speaker language_mode audio
    hlen htext]
  rfl

theorem handleBinaryMessage_deliveries_eq (C : Collaborators)
    (sendOk : Participant → Bool) (r : Registry) (code : String)
    (speaker : Participant) (language_mode : String) (audio : List Nat)
    (hlen : 100 ≤ audio.length)
    (htext : ¬ isBlank (C.transcribeFn audio).text = true) :
    (handleBinaryMessage C sendOk r code speaker language_mode audio).deliveries
      = ((broadcast_json r code none sendOk).delivered.map
          (fun p => (p, theRes C speaker language_mode audio)))
        ++ (if (broadcast_json r code none sendOk).raised = true then []
            else if sendOk speaker = true
              then [(speaker, theRes C speaker language_mode audio)] else []) := by
  rw [handleBinaryMessage_processed C sendOk r code speaker language_mode audio
    hlen htext]
  rfl

theorem handleBinaryMessage_raised_eq (C : Collaborators)
    (sendOk : Participant → Bool) (r : Registry) (code : String)
    (speaker : Participant) (language_mode : String) (audio : List Nat)
    (hlen : 100 ≤ audio.length)
    (htext : ¬ isBlank (C.transcribeFn audio).text = true) :
    (handleBinaryMessage C sendOk r code speaker language_mode audio).raised
      = (if (broadcast_json r code none sendOk).raised = true then true
         else saveRaises C) := by
  rw [handleBinaryMessage_processed C sendOk r code speaker language_mode audio
    hlen htext]

/-! ### C1 — broadcast fan-out: the prune raises instead of pruning -/

set_option maxRecDepth 10000 in
/-- C1: evaluation of the code at the failing input.  Broadcasting to the
room holding participants 1, 2, 3 with participant 1 excluded while
participant 2's socket is broken: both non-excluded sends are attempted and
participant 3 still receives (the send loop does not short-circuit), but
the prune then calls `set.discard` on the unhashable `Participant` and
raises `TypeError` — the call raises instead of returning, and participant
2 is still in the room's registry set.  The claim's pruning guarantee
("absent from the registry when the broadcast call returns") does not hold
on the code. -/
theorem broadcast_prune_raises_instead_of_pruning :
    broadcast_json demoReg "room1" (some pA) demoSend
      = ⟨[pC], demoReg, true⟩
    ∧ pB ∈ get_participant_list
        (broadcast_json demoReg "room1" (some pA) demoSend).registry "room1" := by
  constructor
  · decide
  · decide

/-! ### C6 — disconnect raises on the unhashable Participant -/

/-- C6: evaluation of the code at the failing inputs.  `disconnect` raises
`TypeError` whenever the room key exists — even for an already-absent
session, and already on the reachable state where the entry is an empty set
(created by `connect` at manager.py line 52 before `set.add` raised).  So
removal is not a no-op that never raises, and the last-session GC branch is
unreachable.  Only when the room key is absent does the call return, with
the registry untouched. -/
theorem disconnect_raises_when_room_exists :
    disconnect [("room1", [])] "room1" pB = Except.error ()
    ∧ disconnect demoReg "room1" pB = Except.error ()
    ∧ disconnect [] "room1" pB = Except.ok [] := by
  refine ⟨rfl, rfl, rfl⟩

/-! ### C8 — tiny frames are discarded silently -/

/-- C8: an inbound binary segment shorter than 100 bytes is discarded with
zero pipeline side effects: no collaborator call of any kind, no result, no
delivery, registry untouched, and no exception surfaced. -/
theorem tiny_frame_discarded_silently (C : Collaborators)
    (sendOk : Participant → Bool) (r : Registry) (code : String)
    (speaker : Participant) (language_mode : String) (audio : List Nat)
    (hlen : audio.length < 100) :
    handleBinaryMessage C sendOk r code speaker language_mode audio
      = ⟨r, none, [], [], false⟩ := by
  unfold handleBinaryMessage
  rw [if_pos hlen]

/-- Witness for C8: a 3-byte frame produces the empty step. -/
theorem tiny_frame_discarded_silently_witness :
    ([1, 2, 3] : List Nat).length < 100
    ∧ handleBinaryMessage demoC demoSend demoReg "room1" pA "hi_to_en" [1, 2, 3]
        = ⟨demoReg, none, [], [], false⟩ :=
  ⟨by decide,
   tiny_frame_discarded_silently demoC demoSend demoReg "room1" pA "hi_to_en"
     [1, 2, 3] (by decide)⟩

/-! ### C7 — empty transcriptions abort the segment -/

/-- C7: a segment whose transcription is empty or whitespace-only aborts the
pipeline for that segment: the only collaborator call is the transcription
itself — no translation, no synthesis, no broadcast, no persistence — and no
result is delivered. -/
theorem empty_transcription_aborts_pipeline (C : Collaborators)
    (sendOk : Participant → Bool) (r : Registry) (code : String)
    (speaker : Participant) (language_mode : String) (audio : List Nat)
    (hlen : 100 ≤ audio.length)
    (htext : isBlank (C.transcribeFn audio).text = true) :
    handleBinaryMessage C sendOk r code speaker language_mode audio
      = ⟨r, none, [], [Call.transcribeAudio audio], false⟩ := by
  unfold handleBinaryMessage
  rw [if_neg (Nat.not_lt.mpr hlen)]
  simp [htext]

/-- Witness for C7: whitespace-only transcription of a 120-byte frame makes
exactly one call (the transcription) and nothing else. -/
theorem empty_transcription_aborts_pipeline_witness :
    100 ≤ demoAudio.length
    ∧ isBlank (demoCEmpty.transcribeFn demoAudio).text = true
    ∧ handleBinaryMessage demoCEmpty demoSend demoReg "room1" pA "hi_to_en" demoAudio
        = ⟨demoReg, none, [], [Call.transcribeAudio demoAudio], false⟩ :=
  ⟨by decide, by decide,
   empty_transcription_aborts_pipeline demoCEmpty demoSend demoReg "room1" pA
     "hi_to_en" demoAudio (by decide) (by decide)⟩

/-! ### C3 — confident detector overrides the mode-derived source -/

/-- C3: when transcription confidence is strictly above 0.5 the detected
language replaces the mode-derived source language in the delivered result;
in particular, in mode `hi_to_en` with detected language `en`, the result
has `source_language = en` and `target_language = hi` (flipped because the
resolved source equalled the mode-derived target). -/
theorem confident_detector_overrides_source (C : Collaborators)
    (sendOk : Participant → Bool) (r : Registry) (code : String)
    (speaker : Participant) (language_mode : String) (audio : List Nat)
    (hlen : 100 ≤ audio.length)
    (htext : ¬ isBlank (C.transcribeFn audio).text = true)
    (hconf : mkRat 1 2 < (C.transcribeFn audio).confidence)
    (hdet : ¬ (C.transcribeFn audio).language = "auto") :
    (handleBinaryMessage C sendOk r code speaker language_mode audio).result.isSome = true
    ∧ ∀ res,
        (handleBinaryMessage C sendOk r code speaker language_mode audio).result = some res →
        res.sourceLanguage = (C.transcribeFn audio).language
        ∧ (language_mode = "hi_to_en" → (C.transcribeFn audio).language = "en" →
            res.sourceLanguage = "en" ∧ res.targetLanguage = "hi") := by
  constructor
  · rw [handleBinaryMessage_processed C sendOk r code speaker language_mode audio hlen htext]
    rfl
  · intro res hres
    rw [handleBinaryMessage_processed C sendOk r code speaker language_mode audio
      hlen htext] at hres
    simp only [hconf, if_pos] at hres
    rw [translate_text_resolved C _ _ _ htext hdet] at hres
    simp only [Option.some.injEq] at hres
    subst hres
    refine ⟨rfl, ?_⟩
    intro hmode hlang
    refine ⟨hlang, ?_⟩
    simp [hmode, hlang]

/-- Witness for C3: mode `hi_to_en`, detected `en`, confidence 0.9 delivers
`source_language = en`, `target_language = hi`. -/
theorem confident_detector_overrides_source_witness :
    100 ≤ demoAudio.length
    ∧ ¬ isBlank (demoC.transcribeFn demoAudio).text = true
    ∧ mkRat 1 2 < (demoC.transcribeFn demoAudio).confidence
    ∧ ¬ (demoC.transcribeFn demoAudio).language = "auto"
    ∧ (⟨1, "asha", "hello", "hello!", "en", "hi", "hello!-hi", mkRat 9 10⟩ :
        ResultData).sourceLanguage = "en"
    ∧ (⟨1, "asha", "hello", "hello!", "en", "hi", "hello!-hi", mkRat 9 10⟩ :
        ResultData).targetLanguage = "hi" := by
  refine ⟨by decide, by decide, by decide, by decide, ?_, ?_⟩
  · exact (((confident_detector_overrides_source demoC demoSend demoReg "room1" pA
      "hi_to_en" demoAudio (by decide) (by decide) (by decide) (by decide)).2
      ⟨1, "asha", "hello", "hello!", "en", "hi", "hello!-hi", mkRat 9 10⟩
      (by decide)).2 rfl (by decide)).1
  · exact (((confident_detector_overrides_source demoC demoSend demoReg "room1" pA
      "hi_to_en" demoAudio (by decide) (by decide) (by decide) (by decide)).2
      ⟨1, "asha", "hello", "hello!", "en", "hi", "hello!-hi", mkRat 9 10⟩
      (by decide)).2 rfl (by decide)).2

/-! ### C4 — translation failure falls back to the original text -/

/-- C4: when the translation collaborator raises or returns `None`, the
pipeline does not abort: a result is still produced, its `translated_text`
is the original transcribed text verbatim, and its audio reference is the
synthesis of that same text. -/
theorem translation_failure_falls_back (C : Collaborators)
    (sendOk : Participant → Bool) (r : Registry) (code : String)
    (speaker : Participant) (language_mode : String) (audio : List Nat)
    (hlen : 100 ≤ audio.length)
    (htext : ¬ isBlank (C.transcribeFn audio).text = true)
    (hfail : ∀ a b c, C.translateFn a b c = Except.error ()
             ∨ C.translateFn a b c = Except.ok none) :
    (handleBinaryMessage C sendOk r code speaker language_mode audio).result.isSome = true
    ∧ ∀ res,
        (handleBinaryMessage C sendOk r code speaker language_mode audio).result = some res →
        res.translatedText = (C.transcribeFn audio).text
        ∧ res.audioUrl = synthesize_speech C (C.transcribeFn audio).text res.targetLanguage := by
  have hfb : ∀ a b c, translateFallback C a b c = a := by
    intro a b c
    rcases hfail a b c with h | h <;> simp [translateFallback, h]
  constructor
  · rw [handleBinaryMessage_processed C sendOk r code speaker language_mode audio hlen htext]
    rfl
  · intro res hres
    rw [handleBinaryMessage_processed C sendOk r code speaker language_mode audio
      hlen htext] at hres
    simp only [Option.some.injEq] at hres
    subst hres
    constructor
    · rw [translate_text_fst C _ _ _ htext]
      simp [hfb]
    · rw [translate_text_fst C _ _ _ htext]
      simp [hfb]

/-- Witness for C4: with a raising translator, the delivered text is the
transcription "hello" and the audio is synthesis of "hello". -/
theorem translation_failure_falls_back_witness :
    100 ≤ demoAudio.length
    ∧ ¬ isBlank (demoCfailT.transcribeFn demoAudio).text = true
    ∧ (⟨1, "asha", "hello", "hello", "en", "hi", "hello-hi", mkRat 9 10⟩ :
        ResultData).translatedText = (demoCfailT.transcribeFn demoAudio).text
    ∧ (⟨1, "asha", "hello", "hello", "en", "hi", "hello-hi", mkRat 9 10⟩ :
        ResultData).audioUrl = synthesize_speech demoCfailT "hello" "hi" := by
  refine ⟨by decide, by decide, ?_, ?_⟩
  · exact ((translation_failure_falls_back demoCfailT demoSend demoReg "room1" pA
      "hi_to_en" demoAudio (by decide) (by decide)
      (fun a b c => Or.inl rfl)).2
      ⟨1, "asha", "hello", "hello", "en", "hi", "hello-hi", mkRat 9 10⟩
      (by decide)).1
  · exact ((translation_failure_falls_back demoCfailT demoSend demoReg "room1" pA
      "hi_to_en" demoAudio (by decide) (by decide)
      (fun a b c => Or.inl rfl)).2
      ⟨1, "asha", "hello", "hello", "en", "hi", "hello-hi", mkRat 9 10⟩
      (by decide)).2

/-! ### C2 — the teardown itself raises; user_left is never broadcast -/

/-- C2: evaluation of the code at the failing input.  Whichever way the
`RUNNING` loop exits, the `finally` block first calls `manager.disconnect`,
whose `set.discard` raises `TypeError` because the room entry exists (the
departed session's own room necessarily has an entry); the `user_left`
broadcast at handler.py line 264 is therefore never reached — no event is
constructed, nobody receives it — and the room's session count does not
decrease.  The claim's unconditional remove-and-notify teardown does not
hold on the code. -/
theorem teardown_disconnect_raises_no_user_left :
    handlerFinally ExitReason.errored demoReg "room1" pA demoSend
      = ⟨demoReg, [], none, true⟩
    ∧ handlerFinally ExitReason.disconnected demoReg "room1" pA demoSend
      = ⟨demoReg, [], none, true⟩
    ∧ (get_participant_list
        (handlerFinally ExitReason.errored demoReg "room1" pA demoSend).registry
        "room1").length
      = (get_participant_list demoReg "room1").length := by
  refine ⟨by decide, by decide, by decide⟩

/-! ### C10 — speaker delivery count: twice only when no send fails -/

set_option maxRecDepth 10000 in
/-- C10 counterexample: with participant 2's socket broken, the speaker's
utterance is broadcast (with no excluded session) to participants 1 and 3,
but the broadcast then raises at the prune (`set.discard` on the unhashable
`Participant`), so the subsequent direct send at handler.py line 214 never
executes: the speaker receives the payload exactly once, not twice, and the
`TypeError` escapes the loop body. -/
theorem speaker_single_delivery_counterexample :
    ((handleBinaryMessage demoC demoSend demoReg "room1" pA "hi_to_en"
        demoAudio).deliveries.filter (fun d => decide (d.1 = pA))).length = 1
    ∧ (handleBinaryMessage demoC demoSend demoReg "room1" pA "hi_to_en"
        demoAudio).raised = true := by
  constructor
  · decide
  · decide

/-- C10 (amended): on a processed utterance the room broadcast is invoked
with no excluded session, so for a speaker registered in a duplicate-free
room with a working socket: if every member's delivery succeeds, the
broadcast returns and the direct send runs, and the speaker receives the
identical payload exactly twice; if any member's delivery fails, the
broadcast raises at the prune after its send loop, the direct send never
runs, and the speaker receives the payload exactly once; every delivery
carries the same payload. -/
theorem speaker_delivery_count (C : Collaborators)
    (sendOk : Participant → Bool) (r : Registry) (code : String)
    (ps : List Participant) (speaker : Participant) (language_mode : String)
    (audio : List Nat)
    (hlk : lookupRoom r code = some ps) (hnd : ps.Nodup) (hmem : speaker ∈ ps)
    (hok : sendOk speaker = true)
    (hlen : 100 ≤ audio.length)
    (htext : ¬ isBlank (C.transcribeFn audio).text = true) :
    ∀ res,
      (handleBinaryMessage C sendOk r code speaker language_mode audio).result = some res →
      ((∀ p ∈ ps, sendOk p = true) →
        ((handleBinaryMessage C sendOk r code speaker language_mode audio).deliveries.filter
            (fun d => decide (d.1 = speaker))).length = 2)
      ∧ ((∃ q, q ∈ ps ∧ sendOk q = false) →
        ((handleBinaryMessage C sendOk r code speaker language_mode audio).deliveries.filter
            (fun d => decide (d.1 = speaker))).length = 1
        ∧ (handleBinaryMessage C sendOk r code speaker language_mode audio).raised = true)
      ∧ (∀ d ∈ (handleBinaryMessage C sendOk r code speaker language_mode audio).deliveries,
          d.2 = res) := by
  intro res hres
  rw [handleBinaryMessage_result_eq C sendOk r code speaker language_mode audio
    hlen htext, Option.some.injEq] at hres
  subst hres
  have hb_del : (broadcast_json r code none sendOk).delivered
      = ps.filter (fun p => sendOk p) := by
    simp only [broadcast_json, hlk, broadcastAttempts_none]
  have hsingle : (ps.filter (fun p => sendOk p)).filter (fun p => decide (p = speaker))
      = [speaker] :=
    filter_eq_singleton_of_nodup _ (hnd.filter _) speaker
      (List.mem_filter.mpr ⟨hmem, hok⟩)
  refine ⟨?_, ?_, ?_⟩
  · intro hall
    have hfl : ps.filter (fun p => !sendOk p) = [] :=
      List.filter_eq_nil_iff.mpr (fun q hq => by simp [hall q hq])
    have hraise : (broadcast_json r code none sendOk).raised = false := by
      simp only [broadcast_json, hlk, broadcastAttempts_none, hfl]
      rfl
    rw [handleBinaryMessage_deliveries_eq C sendOk r code speaker language_mode audio
      hlen htext, hraise, hb_del, if_neg Bool.false_ne_true, if_pos hok,
      List.filter_append, List.length_append, filter_fst_map_pair, hsingle]
    simp
  · intro hex
    obtain ⟨q, hq, hqf⟩ := hex
    have hne : ps.filter (fun p => !sendOk p) ≠ [] := by
      intro hnil
      have hqmem : q ∈ ps.filter (fun p => !sendOk p) :=
        List.mem_filter.mpr ⟨hq, by rw [hqf]; rfl⟩
      rw [hnil] at hqmem
      cases hqmem
    have hraise : (broadcast_json r code none sendOk).raised = true := by
      simp only [broadcast_json, hlk, broadcastAttempts_none]
      exact decide_eq_true hne
    constructor
    · rw [handleBinaryMessage_deliveries_eq C sendOk r code speaker language_mode audio
        hlen htext, hraise, hb_del, if_pos rfl, List.append_nil,
        filter_fst_map_pair, hsingle]
      simp
    · rw [handleBinaryMessage_raised_eq C sendOk r code speaker language_mode audio
        hlen htext, hraise, if_pos rfl]
  · intro d hd
    rw [handleBinaryMessage_deliveries_eq C sendOk r code speaker language_mode audio
      hlen htext] at hd
    rcases List.mem_append.mp hd with h | h
    · rcases List.mem_map.mp h with ⟨p, hp, hdp⟩
      rw [← hdp]
    · by_cases hb : (broadcast_json r code none sendOk).raised = true
      · rw [if_pos hb] at h
        cases h
      · rw [if_neg hb] at h
        by_cases hsp : sendOk speaker = true
        · rw [if_pos hsp] at h
          rw [List.mem_singleton] at h
          rw [h]
        · rw [if_neg hsp] at h
          cases h

set_option maxRecDepth 10000 in
/-- Witness for C10 (amended): with every socket working, the speaker of
the demo room receives their own payload exactly twice. -/
theorem speaker_delivery_count_witness :
    lookupRoom demoReg "room1" = some [pA, pB, pC]
    ∧ ([pA, pB, pC] : List Participant).Nodup
    ∧ ((handleBinaryMessage demoC (fun _ => true) demoReg "room1" pA "hi_to_en"
        demoAudio).deliveries.filter (fun d => decide (d.1 = pA))).length = 2 := by
  refine ⟨rfl, by decide, ?_⟩
  exact ((speaker_delivery_count demoC (fun _ => true) demoReg "room1" [pA, pB, pC]
    pA "hi_to_en" demoAudio rfl (by decide) (by decide) rfl (by decide) (by decide))
    (theRes demoC pA "hi_to_en" demoAudio)
    (handleBinaryMessage_result_eq demoC (fun _ => true) demoReg "room1" pA
      "hi_to_en" demoAudio (by decide) (by decide))).1 (fun p hp => rfl)

/-! ### C5 — persistence failure: delivery unaffected, but the session dies -/

set_option maxRecDepth 10000 in
/-- C5 (counterexample to the claim as stated): with a failing persistence
collaborator, the step's exception flag is set — the raise escapes the loop
body, so the session does NOT keep running (the loop exits into teardown) —
even though the payload had already been delivered. -/
theorem persistence_failure_ends_session_counterexample :
    (handleBinaryMessage demoCfailSave (fun _ => true) demoReg "room1" pA "hi_to_en"
        demoAudio).raised = true
    ∧ (handleBinaryMessage demoCfailSave (fun _ => true) demoReg "room1" pA "hi_to_en"
        demoAudio).deliveries ≠ [] := by
  constructor
  · decide
  · decide

/-- C5 (amended): the persistence write happens strictly after the broadcast
and the direct send, so its failure never blocks or alters the delivery of
that utterance's result (deliveries and result are exactly those of a
healthy persistence collaborator); but the failure is not swallowed — the
exception escapes the receive loop, ending the session. -/
theorem persistence_failure_does_not_block_delivery (C : Collaborators)
    (sendOk : Participant → Bool) (r : Registry) (code : String)
    (speaker : Participant) (language_mode : String) (audio : List Nat)
    (hlen : 100 ≤ audio.length)
    (htext : ¬ isBlank (C.transcribeFn audio).text = true)
    (hsave : C.saveFn = Except.error ()) :
    (handleBinaryMessage C sendOk r code speaker language_mode audio).raised = true
    ∧ (handleBinaryMessage C sendOk r code speaker language_mode audio).deliveries
        = (handleBinaryMessage ⟨C.transcribeFn, C.detectRaw, C.translateFn, C.synthRaw,
            Except.ok ()⟩ sendOk r code speaker language_mode audio).deliveries
    ∧ (handleBinaryMessage C sendOk r code speaker language_mode audio).result
        = (handleBinaryMessage ⟨C.transcribeFn, C.detectRaw, C.translateFn, C.synthRaw,
            Except.ok ()⟩ sendOk r code speaker language_mode audio).result := by
  refine ⟨?_, ?_, ?_⟩
  · rw [handleBinaryMessage_raised_eq C sendOk r code speaker language_mode audio
      hlen htext]
    have hs : saveRaises C = true := by simp [saveRaises, hsave]
    rw [hs, ite_self]
  · rw [handleBinaryMessage_processed C sendOk r code speaker language_mode audio
      hlen htext,
      handleBinaryMessage_processed ⟨C.transcribeFn, C.detectRaw, C.translateFn,
        C.synthRaw, Except.ok ()⟩ sendOk r code speaker language_mode audio hlen htext]
    rfl
  · rw [handleBinaryMessage_processed C sendOk r code speaker language_mode audio
      hlen htext,
      handleBinaryMessage_processed ⟨C.transcribeFn, C.detectRaw, C.translateFn,
        C.synthRaw, Except.ok ()⟩ sendOk r code speaker language_mode audio hlen htext]
    rfl

/-- Witness for C5 (amended): the demo pipeline with a raising persistence
write raises out of the loop body while its deliveries equal those of the
healthy pipeline. -/
theorem persistence_failure_does_not_block_delivery_witness :
    100 ≤ demoAudio.length
    ∧ demoCfailSave.saveFn = Except.error ()
    ∧ (handleBinaryMessage demoCfailSave demoSend demoReg "room1" pA "hi_to_en"
        demoAudio).raised = true
    ∧ (handleBinaryMessage demoCfailSave demoSend demoReg "room1" pA "hi_to_en"
        demoAudio).deliveries
      = (handleBinaryMessage ⟨demoCfailSave.transcribeFn, demoCfailSave.detectRaw,
          demoCfailSave.translateFn, demoCfailSave.synthRaw, Except.ok ()⟩ demoSend
          demoReg "room1" pA "hi_to_en" demoAudio).deliveries := by
  have h := persistence_failure_does_not_block_delivery demoCfailSave demoSend demoReg
    "room1" pA "hi_to_en" demoAudio (by decide) (by decide) rfl
  exact ⟨by decide, rfl, h.1, h.2.1⟩

/-! ### C9 — connection-fatal failures close with distinct codes -/

/-- C9: a connection whose token does not resolve to an identity is closed
immediately with code 4001, and one whose room code does not resolve to an
active room is closed with code 4002; the codes are distinct, and in both
cases the registry is returned untouched — no entry is ever created. -/
theorem connection_fatal_closes_without_registration
    (authUser : Option UserRec) (roomFound : Bool) (modeLookup : Option String)
    (r : Registry) (code : String) (sendOk : Participant → Bool) :
    (authUser = none →
      websocket_meeting_prelude authUser roomFound modeLookup r code sendOk
        = (ConnectOutcome.closed 4001 "Authentication failed", r))
    ∧ (∀ u, authUser = some u → roomFound = false →
      websocket_meeting_prelude authUser roomFound modeLookup r code sendOk
        = (ConnectOutcome.closed 4002 "Room not found or ended", r))
    ∧ (4001 : Nat) ≠ 4002 := by
  refine ⟨?_, ?_, by decide⟩
  · intro h
    subst h
    rfl
  · intro u h hr
    subst h
    subst hr
    rfl

/-- Witness for C9: both fatal paths on the demo registry. -/
theorem connection_fatal_closes_without_registration_witness :
    websocket_meeting_prelude none true (some "hi_to_en") demoReg "room1" demoSend
      = (ConnectOutcome.closed 4001 "Authentication failed", demoReg)
    ∧ websocket_meeting_prelude (some ⟨7, "dana"⟩) false none demoReg "room1" demoSend
      = (ConnectOutcome.closed 4002 "Room not found or ended", demoReg) :=
  ⟨(connection_fatal_closes_without_registration none true (some "hi_to_en") demoReg
      "room1" demoSend).1 rfl,
   (connection_fatal_closes_without_registration (some ⟨7, "dana"⟩) false none demoReg
      "room1" demoSend).2.1 ⟨7, "dana"⟩ rfl rfl⟩

end SpeakFluent
